import Mathlib

/-!
Verification of the distributed-lock catalog client
(`DistLockCatalogImpl`, dist_lock_catalog_impl.cpp) against its
natural-language specification.

The development shallowly embeds:
* a BSON document model (values, field lists, arrays);
* the response-parsing helpers `extractFindAndModifyNewObj` and
  `extractElectionId`, translated line by line from the source;
* the request builders and the per-operation response pipelines of
  `ping`, `grabLock`, `overtakeLock`, `unlock`, `getServerInfo`,
  `getPing`, `getLockByTS`, translated from the source;
* the remote store's atomic findAndModify primitive, modelled from the
  spec (the store itself is an external collaborator, not in the source).
-/

/-! ## BSON document model -/

mutual
/-- BSON value: the subset of BSON types this client manipulates
(null, booleans, integers, strings, object ids, dates, embedded
documents, arrays). -/
inductive BSONValue where
  | null
  | bool (b : Bool)
  | int (n : Int)
  | str (s : String)
  | oid (o : Nat)
  | date (d : Nat)
  | doc (fields : BSONFields)
  | arr (elems : BSONArr)
  deriving DecidableEq, Repr

/-- Ordered field list of a BSON document. -/
inductive BSONFields where
  | nil
  | cons (k : String) (v : BSONValue) (rest : BSONFields)
  deriving DecidableEq, Repr

/-- BSON array. -/
inductive BSONArr where
  | anil
  | acons (v : BSONValue) (rest : BSONArr)
  deriving DecidableEq, Repr
end

/-- A BSON object is its field list. -/
abbrev BSONObj := BSONFields

/-- BSON type tags, mirroring the `BSONType` enum used by
`bsonExtractTypedField` call sites (`Object`, `Date`, object id). -/
inductive BSONType where
  | NullT
  | BoolT
  | NumberInt
  | StringT
  | jstOID
  | Date
  | Object
  | ArrayT
  deriving DecidableEq, Repr

/-- Type tag of a value. -/
def BSONValue.btype : BSONValue → BSONType
  | .null => .NullT
  | .bool _ => .BoolT
  | .int _ => .NumberInt
  | .str _ => .StringT
  | .oid _ => .jstOID
  | .date _ => .Date
  | .doc _ => .Object
  | .arr _ => .ArrayT

/-- Field lookup, `obj[fieldName]`: first field with the given name, or
none when the element is EOO (absent). -/
def bsonLookup : BSONObj → String → Option BSONValue
  | .nil, _ => none
  | .cons k v rest, key => if k = key then some v else bsonLookup rest key

/-- BSONElement::isNull. -/
def BSONValue.isNull : BSONValue → Bool
  | .null => true
  | _ => false

/-- Modelled from the spec: the result field "must be an embedded
document" (spec 4.1 rule 3); `isABSONObj` holds exactly of embedded
documents. The C++ `BSONElement::isABSONObj` lives outside the given
source. -/
def BSONValue.isABSONObj : BSONValue → Bool
  | .doc _ => true
  | _ => false

/-- BSONElement::Obj: the field list of an embedded document (empty for
non-documents; call sites guard with `isABSONObj` or a typed extract). -/
def BSONValue.objFields : BSONValue → BSONObj
  | .doc f => f
  | _ => .nil

/-- Date payload of a value (call sites guard with a typed extract). -/
def BSONValue.dateValue : BSONValue → Nat
  | .date d => d
  | _ => 0

/-- Emptiness of a BSON object, `BSONObj::isEmpty`. -/
def BSONFields.isEmpty : BSONObj → Bool
  | .nil => true
  | .cons _ _ _ => false

/-! ## Status model -/

/-- Error codes that appear in the translated source: `OK`, `NoSuchKey`
and `TypeMismatch` (from the typed field extractors),
`UnsupportedFormat`, `WriteConcernFailed`, `FailedToParse`,
`InternalError` (the unimplemented stubs), `CommandFailed` (a failing
overall command status) and `HostUnreachable` (targeting failures). -/
inductive ErrorCode where
  | OK
  | NoSuchKey
  | TypeMismatch
  | UnsupportedFormat
  | WriteConcernFailed
  | FailedToParse
  | InternalError
  | CommandFailed
  | HostUnreachable
  deriving DecidableEq, Repr

/-- A status: an error code together with a human-readable reason. -/
structure Status where
  code : ErrorCode
  reason : String
  deriving DecidableEq, Repr

/-- Status::isOK. -/
def Status.isOK (s : Status) : Bool := s.code = ErrorCode.OK

/-- The OK status. -/
def Status.OK : Status := ⟨ErrorCode.OK, ""⟩

/-- StatusWith, modelled as Except. -/
abbrev StatusWith (α : Type) := Except Status α

/-- Status part of a StatusWith, `StatusWith::getStatus`. -/
def statusOf {α : Type} : StatusWith α → Status
  | .ok _ => Status.OK
  | .error s => s

/-- Error code of a StatusWith (OK on success). -/
def statusCodeOf {α : Type} (r : StatusWith α) : ErrorCode := (statusOf r).code

/-- Truthiness of a BSON value, `BSONElement::trueValue`: true booleans
and non-zero numbers are truthy, everything else is falsy. -/
def BSONValue.trueValue : BSONValue → Bool
  | .bool b => b
  | .int n => n ≠ 0
  | _ => false

/-- Modelled from the spec: the "overall command status" of a response
envelope (spec 3, 4.1). The helper `getStatusFromCommandResult` is not
part of the given source; per the envelope description, a response is a
command success exactly when its `ok` field is truthy, and otherwise
carries a failure whose message is the response's `errmsg` string. -/
def getStatusFromCommandResult (responseObj : BSONObj) : Status :=
  match bsonLookup responseObj "ok" with
  | some v =>
      if v.trueValue then Status.OK
      else
        match bsonLookup responseObj "errmsg" with
        | some (.str m) => ⟨ErrorCode.CommandFailed, m⟩
        | _ => ⟨ErrorCode.CommandFailed, ""⟩
  | none => ⟨ErrorCode.CommandFailed, "no ok field"⟩

/-- Modelled from the spec: typed field extraction (spec 4.1 uses it for
the durability-error substructure, the epoch substructure and
`localTime`): absent field is `NoSuchKey`, a field of the wrong type is
`TypeMismatch`, otherwise the element is returned. The C++
`bsonExtractTypedField` lives outside the given source. -/
def bsonExtractTypedField (obj : BSONObj) (fieldName : String) (t : BSONType) :
    StatusWith BSONValue :=
  match bsonLookup obj fieldName with
  | none => .error ⟨ErrorCode.NoSuchKey, "missing field " ++ fieldName⟩
  | some v =>
      if v.btype = t then .ok v
      else .error ⟨ErrorCode.TypeMismatch, "wrong type for field " ++ fieldName⟩

/-- Modelled from the spec: object-id field extraction (used for the
epoch identifier, spec 4.1): absent is `NoSuchKey`, wrong type is
`TypeMismatch`, otherwise the object id is returned. -/
def bsonExtractOIDField (obj : BSONObj) (fieldName : String) : StatusWith Nat :=
  match bsonLookup obj fieldName with
  | none => .error ⟨ErrorCode.NoSuchKey, "missing field " ++ fieldName⟩
  | some (.oid o) => .ok o
  | some _ => .error ⟨ErrorCode.TypeMismatch, "wrong type for field " ++ fieldName⟩

/-! ## Response parser (translated from the unnamed source, lines 53-135) -/

/-- kCmdResponseWriteConcernField. -/
def kCmdResponseWriteConcernField : String := "writeConcernError"

/-- kFindAndModifyResponseResultDocField. -/
def kFindAndModifyResponseResultDocField : String := "value"

/-- kLocalTimeField. -/
def kLocalTimeField : String := "localTime"

/-- Modelled from the spec: field name of the nested status substructure
holding the epoch identifier (spec 4.1); the constant's value lives in
the rpc metadata unit, outside the given source. -/
def kGLEStatsFieldName : String := "$gleStats"

/-- Modelled from the spec: field name of the epoch identifier inside
the nested status substructure (spec 4.1). -/
def kGLEStatsElectionIdFieldName : String := "electionId"

/-- Modelled from the spec: parsing of the durability-error substructure
(`WCErrorDetail::parseBSON`, outside the given source). Per spec 4.1
rule 2 the substructure either parses, yielding its embedded message, or
fails to parse. The model requires an integer `code` field and takes the
message from an optional string `errmsg` field; a mistyped field is a
parse failure. Success carries the embedded message, failure a parse
message. -/
def wcErrorParseBSON (wcErrObj : BSONObj) : Except String String :=
  match bsonLookup wcErrObj "code" with
  | some (.int _) =>
      match bsonLookup wcErrObj "errmsg" with
      | some (.str m) => .ok m
      | none => .ok ""
      | some _ => .error "wrong type for field errmsg"
  | _ => .error "missing or mistyped field code"

/-- Translated from the source (lines 64-107): returns the resulting new
object from the findAndModify response object, checking the command
status, then the write-concern error substructure, then the `value`
field. -/
def extractFindAndModifyNewObj (responseObj : BSONObj) : StatusWith BSONObj :=
  let cmdStatus := getStatusFromCommandResult responseObj
  if ¬ cmdStatus.isOK then .error cmdStatus
  else
    match bsonExtractTypedField responseObj kCmdResponseWriteConcernField .Object with
    | .ok wcErrorElem =>
        match wcErrorParseBSON wcErrorElem.objFields with
        | .error wcErrorParseMsg => .error ⟨ErrorCode.UnsupportedFormat, wcErrorParseMsg⟩
        | .ok errMessage => .error ⟨ErrorCode.WriteConcernFailed, errMessage⟩
    | .error wcErrStatus =>
        if wcErrStatus.code ≠ ErrorCode.NoSuchKey then .error wcErrStatus
        else
          match bsonLookup responseObj kFindAndModifyResponseResultDocField with
          | some newDocElem =>
              if newDocElem.isNull then .ok .nil
              else if ¬ newDocElem.isABSONObj then
                .error ⟨ErrorCode.UnsupportedFormat,
                        "expected an object from the findAndModify response value field"⟩
              else .ok newDocElem.objFields
          | none => .ok .nil

/-- Translated from the source (lines 113-135): extract the electionId
from a command response; any failure of the two nested extractions is
reported as `UnsupportedFormat` carrying the underlying reason. -/
def extractElectionId (responseObj : BSONObj) : StatusWith Nat :=
  match bsonExtractTypedField responseObj kGLEStatsFieldName .Object with
  | .error gleStatus => .error ⟨ErrorCode.UnsupportedFormat, gleStatus.reason⟩
  | .ok gleStatsElem =>
      match bsonExtractOIDField gleStatsElem.objFields kGLEStatsElectionIdFieldName with
      | .error electionIdStatus =>
          .error ⟨ErrorCode.UnsupportedFormat, electionIdStatus.reason⟩
      | .ok electionId => .ok electionId

/-! ## Lock records (modelled from the spec, section 3; `type_locks.h` is
outside the given source) -/

/-- Modelled from the spec: a lock record, one per named resource, with
fields `name`, `lockSessionID`, `state`, `who`, `process`, `when`,
`why` (spec 3). Fields are optional so that a default-constructed
(empty) record exists, as returned by the client on "not acquired". -/
structure LocksType where
  name : Option String
  lockSessionID : Option Nat
  state : Option Int
  who : Option String
  process : Option String
  when : Option Nat
  why : Option String
  deriving DecidableEq, Repr

/-- Modelled from the spec: the UNLOCKED member of the state enum. -/
def LocksType.UNLOCKED : Int := 0

/-- Modelled from the spec: the LOCKED member of the state enum. -/
def LocksType.LOCKED : Int := 2

/-- Default-constructed (empty) lock record, `LocksType()`. -/
def LocksType.empty : LocksType := ⟨none, none, none, none, none, none, none⟩

/-- Optional string field of a lock document: absent is fine, a
mistyped field is a parse failure. -/
def parseOptStr (d : BSONObj) (k : String) : Except String (Option String) :=
  match bsonLookup d k with
  | none => .ok none
  | some (.str s) => .ok (some s)
  | some _ => .error ("wrong type for field " ++ k)

/-- Optional object-id field of a lock document. -/
def parseOptOID (d : BSONObj) (k : String) : Except String (Option Nat) :=
  match bsonLookup d k with
  | none => .ok none
  | some (.oid o) => .ok (some o)
  | some _ => .error ("wrong type for field " ++ k)

/-- Optional integer field of a lock document. -/
def parseOptInt (d : BSONObj) (k : String) : Except String (Option Int) :=
  match bsonLookup d k with
  | none => .ok none
  | some (.int n) => .ok (some n)
  | some _ => .error ("wrong type for field " ++ k)

/-- Optional date field of a lock document. -/
def parseOptDate (d : BSONObj) (k : String) : Except String (Option Nat) :=
  match bsonLookup d k with
  | none => .ok none
  | some (.date t) => .ok (some t)
  | some _ => .error ("wrong type for field " ++ k)

/-- Modelled from the spec: `LocksType::parseBSON` decodes a lock
document into a lock record; each of the seven fields of spec 3 is taken
when present and must then be well-typed, otherwise parsing fails with a
message. -/
def LocksType.parseBSON (source : BSONObj) : Except String LocksType := do
  let nameF ← parseOptStr source "name"
  let sessF ← parseOptOID source "lockSessionID"
  let stateF ← parseOptInt source "state"
  let whoF ← parseOptStr source "who"
  let processF ← parseOptStr source "process"
  let whenF ← parseOptDate source "when"
  let whyF ← parseOptStr source "why"
  .ok ⟨nameF, sessF, stateF, whoF, processF, whenF, whyF⟩

/-! ## Request construction (translated from the source) -/

/-- Modelled from the spec: the findAndModify request the client builds
— namespace, match query, update document, upsert flag, and whether the
post-update document is requested (`FindAndModifyRequest` lives in the
client library, outside the given source). -/
structure FindAndModifyRequest where
  ns : String
  query : BSONObj
  update : BSONObj
  upsert : Bool
  shouldReturnNew : Bool
  deriving DecidableEq, Repr

/-- FindAndModifyRequest::makeUpdate: upsert and shouldReturnNew are off
by default. -/
def FindAndModifyRequest.makeUpdate (ns : String) (query update : BSONObj) :
    FindAndModifyRequest :=
  ⟨ns, query, update, false, false⟩

/-- FindAndModifyRequest::setUpsert. -/
def FindAndModifyRequest.setUpsert (r : FindAndModifyRequest) (b : Bool) :
    FindAndModifyRequest :=
  { r with upsert := b }

/-- FindAndModifyRequest::setShouldReturnNew. -/
def FindAndModifyRequest.setShouldReturnNew (r : FindAndModifyRequest) (b : Bool) :
    FindAndModifyRequest :=
  { r with shouldReturnNew := b }

/-- The lock-records collection identifier (`LocksType::ConfigNS`). -/
def locksNS : String := "config.locks"

/-- The liveness-records collection identifier
(`LockpingsType::ConfigNS`). -/
def lockPingNS : String := "config.lockpings"

/-- Translated from the source (lines 205-210 and 275-280, identical in
grabLock and overtakeLock): the full new lock detail document set by an
acquisition — session token, LOCKED state, who, process, when, why. -/
def newLockDetails (lockSessionID : Nat) (who processId : String) (time : Nat)
    (why : String) : BSONObj :=
  .cons "lockSessionID" (.oid lockSessionID)
    (.cons "state" (.int LocksType.LOCKED)
      (.cons "who" (.str who)
        (.cons "process" (.str processId)
          (.cons "when" (.date time)
            (.cons "why" (.str why) .nil)))))

/-- Translated from the source (lines 212-217): the grabLock request —
match `{name = lockID, state = UNLOCKED}`, `$set` the new lock details,
upsert on, post-update document requested. -/
def grabLockRequest (lockID : String) (lockSessionID : Nat) (who processId : String)
    (time : Nat) (why : String) : FindAndModifyRequest :=
  let request := FindAndModifyRequest.makeUpdate locksNS
      (.cons "name" (.str lockID) (.cons "state" (.int LocksType.UNLOCKED) .nil))
      (.cons "$set" (.doc (newLockDetails lockSessionID who processId time why)) .nil)
  (request.setUpsert true).setShouldReturnNew true

/-- Translated from the source (lines 270-285): the overtakeLock request
— match the OR of `{name = lockID, state = UNLOCKED}` and `{name =
lockID, lockSessionID = currentHolderTS}`, `$set` the new lock details,
no upsert, post-update document requested. -/
def overtakeLockRequest (lockID : String) (lockSessionID currentHolderTS : Nat)
    (who processId : String) (time : Nat) (why : String) : FindAndModifyRequest :=
  let orQuery : BSONArr :=
    .acons (.doc (.cons "name" (.str lockID)
                   (.cons "state" (.int LocksType.UNLOCKED) .nil)))
      (.acons (.doc (.cons "name" (.str lockID)
                      (.cons "lockSessionID" (.oid currentHolderTS) .nil)))
        .anil)
  let request := FindAndModifyRequest.makeUpdate locksNS
      (.cons "$or" (.arr orQuery) .nil)
      (.cons "$set" (.doc (newLockDetails lockSessionID who processId time why)) .nil)
  request.setShouldReturnNew true

/-- Translated from the source (lines 327-330): the unlock request —
match `{lockSessionID = sessionID}` only, `$set state = UNLOCKED`, no
upsert, post-update document not requested. -/
def unlockRequest (lockSessionID : Nat) : FindAndModifyRequest :=
  FindAndModifyRequest.makeUpdate locksNS
    (.cons "lockSessionID" (.oid lockSessionID) .nil)
    (.cons "$set" (.doc (.cons "state" (.int LocksType.UNLOCKED) .nil)) .nil)

/-- Translated from the source (lines 165-169): the ping request —
match `{process = processID}`, `$set ping = time`, upsert on. -/
def pingRequest (processID : String) (pingTime : Nat) : FindAndModifyRequest :=
  let request := FindAndModifyRequest.makeUpdate lockPingNS
    (.cons "process" (.str processID) .nil)
    (.cons "$set" (.doc (.cons "ping" (.date pingTime) .nil)) .nil)
  request.setUpsert true

/-- Translated from the source (lines 355-358): the getServerInfo
command document. -/
def serverStatusRequest : BSONObj := .cons "serverStatus" (.int 1) .nil

/-! ## Per-operation response pipelines (translated from the source) -/

/-- Translated from the source (lines 231-254): grabLock's handling of a
received response — explicit command-status pre-check, then the
findAndModify extraction; an empty extracted document becomes the empty
lock record, otherwise the document is parsed into a lock record. -/
def grabLockFromResponse (responseObj : BSONObj) : StatusWith LocksType :=
  let cmdStatus := getStatusFromCommandResult responseObj
  if ¬ cmdStatus.isOK then .error cmdStatus
  else
    match extractFindAndModifyNewObj responseObj with
    | .error s => .error s
    | .ok newDoc =>
        if newDoc.isEmpty then .ok LocksType.empty
        else
          match LocksType.parseBSON newDoc with
          | .error errMsg => .error ⟨ErrorCode.FailedToParse, errMsg⟩
          | .ok lockDoc => .ok lockDoc

/-- Translated from the source (lines 297-317): overtakeLock's handling
of a received response — no command-status pre-check, the findAndModify
extraction directly, then empty-or-parse exactly as grabLock. -/
def overtakeLockFromResponse (responseObj : BSONObj) : StatusWith LocksType :=
  match extractFindAndModifyNewObj responseObj with
  | .error s => .error s
  | .ok newDoc =>
      if newDoc.isEmpty then .ok LocksType.empty
      else
        match LocksType.parseBSON newDoc with
        | .error errMsg => .error ⟨ErrorCode.FailedToParse, errMsg⟩
        | .ok lockDoc => .ok lockDoc

/-- Translated from the source (lines 180-190): ping's handling of a
received response — explicit command-status pre-check, then the status
of the findAndModify extraction. -/
def pingFromResponse (responseObj : BSONObj) : Status :=
  let cmdStatus := getStatusFromCommandResult responseObj
  if ¬ cmdStatus.isOK then cmdStatus
  else statusOf (extractFindAndModifyNewObj responseObj)

/-- Translated from the source (lines 341-345): unlock's handling of a
received response — the status of the findAndModify extraction. -/
def unlockFromResponse (responseObj : BSONObj) : Status :=
  statusOf (extractFindAndModifyNewObj responseObj)

/-- Server epoch snapshot, `DistLockCatalog::ServerInfo`. -/
structure ServerInfo where
  serverTime : Nat
  electionId : Nat
  deriving DecidableEq, Repr

/-- Translated from the source (lines 364-389): getServerInfo's handling
of a received response — command-status check, typed extraction of the
top-level `localTime` date field (failure wrapped as
`UnsupportedFormat`), then the election id extraction (failure wrapped
as `UnsupportedFormat`). -/
def getServerInfoFromResponse (responseObj : BSONObj) : StatusWith ServerInfo :=
  let cmdStatus := getStatusFromCommandResult responseObj
  if ¬ cmdStatus.isOK then .error cmdStatus
  else
    match bsonExtractTypedField responseObj kLocalTimeField .Date with
    | .error localTimeStatus => .error ⟨ErrorCode.UnsupportedFormat, localTimeStatus.reason⟩
    | .ok localTimeElem =>
        match extractElectionId responseObj with
        | .error electionIdStatus =>
            .error ⟨ErrorCode.UnsupportedFormat, electionIdStatus.reason⟩
        | .ok electionId => .ok ⟨localTimeElem.dateValue, electionId⟩

/-! ## Full operations over an abstract gateway (translated from the
source). The gateway is the external collaborator of spec 6: host
targeting is a `StatusWith` host, command execution a function from the
built request to a `StatusWith` response document. -/

/-- Translated from the source (lines 158-191): ping. -/
def ping (findHostResult : StatusWith String)
    (runCommand : FindAndModifyRequest → StatusWith BSONObj)
    (processID : String) (pingTime : Nat) : Status :=
  match findHostResult with
  | .error s => s
  | .ok _host =>
      match runCommand (pingRequest processID pingTime) with
      | .error s => s
      | .ok responseObj => pingFromResponse responseObj

/-- Translated from the source (lines 193-255): grabLock. -/
def grabLock (findHostResult : StatusWith String)
    (runCommand : FindAndModifyRequest → StatusWith BSONObj)
    (lockID : String) (lockSessionID : Nat) (who processId : String)
    (time : Nat) (why : String) : StatusWith LocksType :=
  match findHostResult with
  | .error s => .error s
  | .ok _host =>
      match runCommand (grabLockRequest lockID lockSessionID who processId time why) with
      | .error s => .error s
      | .ok responseObj => grabLockFromResponse responseObj

/-- Translated from the source (lines 257-318): overtakeLock. -/
def overtakeLock (findHostResult : StatusWith String)
    (runCommand : FindAndModifyRequest → StatusWith BSONObj)
    (lockID : String) (lockSessionID currentHolderTS : Nat) (who processId : String)
    (time : Nat) (why : String) : StatusWith LocksType :=
  match findHostResult with
  | .error s => .error s
  | .ok _host =>
      match runCommand
          (overtakeLockRequest lockID lockSessionID currentHolderTS who processId time why) with
      | .error s => .error s
      | .ok responseObj => overtakeLockFromResponse responseObj

/-- Translated from the source (lines 320-346): unlock. -/
def unlock (findHostResult : StatusWith String)
    (runCommand : FindAndModifyRequest → StatusWith BSONObj)
    (lockSessionID : Nat) : Status :=
  match findHostResult with
  | .error s => s
  | .ok _host =>
      match runCommand (unlockRequest lockSessionID) with
      | .error s => s
      | .ok responseObj => unlockFromResponse responseObj

/-- Translated from the source (lines 348-390): getServerInfo; its
command is a plain document, not a findAndModify request. -/
def getServerInfo (findHostResult : StatusWith String)
    (runCommand : BSONObj → StatusWith BSONObj) : StatusWith ServerInfo :=
  match findHostResult with
  | .error s => .error s
  | .ok _host =>
      match runCommand serverStatusRequest with
      | .error s => .error s
      | .ok responseObj => getServerInfoFromResponse responseObj

/-! ## Unimplemented stubs (translated from the source) -/

/-- Outcome of calling a method whose body may hit a failed invariant:
either the process aborts fatally, or the method returns a value. -/
inductive FatalOr (α : Type) where
  | fatal
  | returns (r : α)
  deriving DecidableEq, Repr

/-- Semantics of `invariant(cond); return k`: the invariant macro aborts
the process when its condition is false, so the continuation is reached
only when the condition holds. -/
def invariantThen {α : Type} (cond : Bool) (k : α) : FatalOr α :=
  if cond then .returns k else .fatal

/-- Modelled from the spec: a liveness record, one per process, with
fields `process` and `ping` (spec 3; `type_lockpings.h` is outside the
given source). -/
structure LockpingsType where
  process : Option String
  ping : Option Nat
  deriving DecidableEq, Repr

/-- Translated from the source (lines 153-156): getPing —
`invariant(false)` followed by an unreachable InternalError return. -/
def getPing (_processID : String) : FatalOr (StatusWith LockpingsType) :=
  invariantThen false (.error ⟨ErrorCode.InternalError, "not yet implemented"⟩)

/-- Translated from the source (lines 392-395): getLockByTS —
`invariant(false)` followed by an unreachable InternalError return. -/
def getLockByTS (_ts : Nat) : FatalOr (StatusWith LocksType) :=
  invariantThen false (.error ⟨ErrorCode.InternalError, "not yet implemented"⟩)

/-! ## Remote store semantics, modelled from the spec. The store is an
external collaborator (spec 1, 5): it provides linearizable
single-document atomic conditional updates. The model below follows the
glossary entry "Atomic conditional update" and sections 4.2 and 5. -/

/-- Modelled from the spec: a simple match predicate is a conjunction of
field equalities (spec 4.2: match `{name = lockID, state = UNLOCKED}`,
`{lockSessionID = sessionID}`, ...). -/
def matchesSimple : BSONObj → BSONObj → Bool
  | .nil, _ => true
  | .cons k v rest, d => decide (bsonLookup d k = some v) && matchesSimple rest d

/-- Any element of an array of alternative match clauses matches. -/
def anyMatches : BSONArr → BSONObj → Bool
  | .anil, _ => false
  | .acons a rest, d => (a.isABSONObj && matchesSimple a.objFields d) || anyMatches rest d

/-- Modelled from the spec: a query document is either a `$or` of
alternative simple clauses (spec 4.2, overtakeLock: "a logical OR of two
alternative match clauses") or a single simple clause. -/
def matchesQuery (q d : BSONObj) : Bool :=
  match bsonLookup q "$or" with
  | some (.arr alts) => anyMatches alts d
  | _ => matchesSimple q d

/-- Replace the first occurrence of a field, appending the field when it
is absent (the store's `$set` on one field). -/
def setField : BSONObj → String → BSONValue → BSONObj
  | .nil, k, v => .cons k v .nil
  | .cons k' v' rest, k, v =>
      if k' = k then .cons k v rest else .cons k' v' (setField rest k v)

/-- Modelled from the spec: the store's `$set` update sets each listed
field of the document in turn (spec 4.2: "set the full record to ...",
"set `state = UNLOCKED`"). -/
def applySet : BSONObj → BSONObj → BSONObj
  | d, .nil => d
  | d, .cons k v rest => applySet (setField d k v) rest

/-- Fields listed under the update document's `$set` key. -/
def setFieldsOf (update : BSONObj) : BSONObj :=
  match bsonLookup update "$set" with
  | some (.doc f) => f
  | _ => .nil

/-- Equality fields of a query: the query itself when it is a simple
clause (the upserting requests never use `$or`). -/
def equalityFieldsOf (q : BSONObj) : BSONObj :=
  match bsonLookup q "$or" with
  | some _ => .nil
  | none => q

/-- Modelled from the spec: whether the lock record addressed by the
query already exists. Spec 3 keeps "at most one record per `name`" and
spec 4.2 has upsert create the record only "if it does not exist", so
existence is judged by the `name` key of the query. -/
def recordNameExists (store : List BSONObj) (q : BSONObj) : Bool :=
  match bsonLookup q "name" with
  | some v => store.any (fun d => decide (bsonLookup d "name" = some v))
  | none => false

/-- Store content and returned value of one findAndModify execution; a
`none` value is the null result of a match-nothing execution. -/
structure FAMOutcome where
  newStore : List BSONObj
  value : Option BSONObj
  deriving DecidableEq, Repr

/-- Update the first document satisfying the predicate, returning the
new store, the pre-image and the post-image. -/
def updateFirst (p : BSONObj → Bool) (f : BSONObj → BSONObj) :
    List BSONObj → Option (List BSONObj × BSONObj × BSONObj)
  | [] => none
  | d :: ds =>
      if p d then some (f d :: ds, d, f d)
      else
        match updateFirst p f ds with
        | none => none
        | some (s, o, n) => some (d :: s, o, n)

/-- Modelled from the spec: one atomic findAndModify execution against
the store (glossary "Atomic conditional update"; spec 4.2). Exactly one
matching document is updated; with no match, an upserting request
creates the record when it does not yet exist, and otherwise the
returned value is null. The returned value is the post-update document
when the request asked for it, the pre-update document otherwise. -/
def runFindAndModify (store : List BSONObj) (req : FindAndModifyRequest) : FAMOutcome :=
  match updateFirst (fun d => matchesQuery req.query d)
      (fun d => applySet d (setFieldsOf req.update)) store with
  | some (newStore, oldDoc, newDoc) =>
      ⟨newStore, some (if req.shouldReturnNew then newDoc else oldDoc)⟩
  | none =>
      if req.upsert && ! recordNameExists store req.query then
        let newDoc := applySet (equalityFieldsOf req.query) (setFieldsOf req.update)
        ⟨store ++ [newDoc], if req.shouldReturnNew then some newDoc else none⟩
      else ⟨store, none⟩

/-- Whether a findAndModify request's match predicate matches anything
in the store ("the update matches nothing" when false). -/
def famMatches (store : List BSONObj) (req : FindAndModifyRequest) : Bool :=
  store.any (fun d => matchesQuery req.query d)

/-- Response envelope produced by the store for an executed
findAndModify: command success and the returned value (null when no
document was matched and none created). -/
def famResponse (value : Option BSONObj) : BSONObj :=
  .cons "ok" (.int 1)
    (.cons "value" (match value with | some d => .doc d | none => .null) .nil)

/-- grabLock run against a store obeying the modelled semantics:
resulting store content and client-visible result. -/
def grabLockOnStore (store : List BSONObj) (lockID : String) (lockSessionID : Nat)
    (who processId : String) (time : Nat) (why : String) :
    List BSONObj × StatusWith LocksType :=
  let out := runFindAndModify store (grabLockRequest lockID lockSessionID who processId time why)
  (out.newStore, grabLockFromResponse (famResponse out.value))

/-- overtakeLock run against a store obeying the modelled semantics. -/
def overtakeLockOnStore (store : List BSONObj) (lockID : String)
    (lockSessionID currentHolderTS : Nat) (who processId : String) (time : Nat)
    (why : String) : List BSONObj × StatusWith LocksType :=
  let out := runFindAndModify store
      (overtakeLockRequest lockID lockSessionID currentHolderTS who processId time why)
  (out.newStore, overtakeLockFromResponse (famResponse out.value))

/-- unlock run against a store obeying the modelled semantics. -/
def unlockOnStore (store : List BSONObj) (lockSessionID : Nat) :
    List BSONObj × Status :=
  let out := runFindAndModify store (unlockRequest lockSessionID)
  (out.newStore, unlockFromResponse (famResponse out.value))

/-! ## Supporting lemmas -/

/-- Setting a field makes it readable. -/
theorem lookup_setField_self (d : BSONObj) (k : String) (v : BSONValue) :
    bsonLookup (setField d k v) k = some v := by
  match d with
  | .nil => simp [setField, bsonLookup]
  | .cons k' v' rest =>
      by_cases h : k' = k
      · simp [setField, h, bsonLookup]
      · simp [setField, h, bsonLookup, lookup_setField_self rest k v]

/-- Setting one field leaves the others unchanged. -/
theorem lookup_setField_ne (d : BSONObj) (k' k : String) (v : BSONValue)
    (h : k' ≠ k) : bsonLookup (setField d k' v) k = bsonLookup d k := by
  match d with
  | .nil => simp [setField, bsonLookup, h]
  | .cons k'' v'' rest =>
      by_cases h2 : k'' = k'
      · simp [setField, h2, bsonLookup, h]
      · simp [setField, h2, bsonLookup, lookup_setField_ne rest k' k v h]

/-- Setting the same field twice is the same as setting it once. -/
theorem setField_setField_self (d : BSONObj) (k : String) (v w : BSONValue) :
    setField (setField d k v) k w = setField d k w := by
  match d with
  | .nil => simp [setField]
  | .cons k' v' rest =>
      by_cases h : k' = k
      · simp [setField, h]
      · simp [setField, h, setField_setField_self rest k v w]

/-- A document with a field set is never empty. -/
theorem isEmpty_setField (d : BSONObj) (k : String) (v : BSONValue) :
    (setField d k v).isEmpty = false := by
  cases d with
  | nil => simp [setField, BSONFields.isEmpty]
  | cons k' v' rest =>
      by_cases h : k' = k <;> simp [setField, h, BSONFields.isEmpty]

/-- Query of the grabLock request. -/
theorem grabLockRequest_query (lockID : String) (sid : Nat) (who processId : String)
    (time : Nat) (why : String) :
    (grabLockRequest lockID sid who processId time why).query =
      .cons "name" (.str lockID) (.cons "state" (.int LocksType.UNLOCKED) .nil) := rfl

/-- Update document of the grabLock request. -/
theorem grabLockRequest_update (lockID : String) (sid : Nat) (who processId : String)
    (time : Nat) (why : String) :
    (grabLockRequest lockID sid who processId time why).update =
      .cons "$set" (.doc (newLockDetails sid who processId time why)) .nil := rfl

/-- grabLock requests upsert. -/
theorem grabLockRequest_upsert (lockID : String) (sid : Nat) (who processId : String)
    (time : Nat) (why : String) :
    (grabLockRequest lockID sid who processId time why).upsert = true := rfl

/-- grabLock requests the post-update document. -/
theorem grabLockRequest_shouldReturnNew (lockID : String) (sid : Nat)
    (who processId : String) (time : Nat) (why : String) :
    (grabLockRequest lockID sid who processId time why).shouldReturnNew = true := rfl

/-- No document matching the predicate means no update. -/
theorem updateFirst_eq_none (p : BSONObj → Bool) (f : BSONObj → BSONObj) :
    ∀ store : List BSONObj, (∀ d ∈ store, p d = false) →
      updateFirst p f store = none
  | [], _ => rfl
  | d :: ds, h => by
      have hd := h d (List.mem_cons_self d ds)
      have ih := updateFirst_eq_none p f ds (fun x hx => h x (List.mem_cons_of_mem d hx))
      simp [updateFirst, hd, ih]

/-- A matching document means the first match is updated. -/
theorem updateFirst_exists_match (p : BSONObj → Bool) (f : BSONObj → BSONObj) :
    ∀ store : List BSONObj, (∃ d ∈ store, p d = true) →
      ∃ s o, updateFirst p f store = some (s, o, f o) ∧ p o = true ∧ o ∈ store
  | [], h => absurd h (by simp)
  | d :: ds, h => by
      by_cases hd : p d = true
      · exact ⟨f d :: ds, d, by simp [updateFirst, hd], hd, List.mem_cons_self d ds⟩
      · obtain ⟨d0, hd0, hp0⟩ := h
        rcases List.mem_cons.mp hd0 with he | hm
        · exact absurd (he ▸ hp0) hd
        · obtain ⟨s, o, hu, hp, ho⟩ := updateFirst_exists_match p f ds ⟨d0, hm, hp0⟩
          exact ⟨d :: s, o, by simp [updateFirst, hd, hu], hp,
                 List.mem_cons_of_mem d ho⟩

/-- An update that is idempotent and preserves the match predicate can
be replayed on the updated store without changing it: the first match of
the second run is the post-image of the first. -/
theorem updateFirst_stable (p : BSONObj → Bool) (f : BSONObj → BSONObj)
    (hp : ∀ d, p (f d) = p d) (hf : ∀ d, f (f d) = f d) :
    ∀ store s o n, updateFirst p f store = some (s, o, n) →
      updateFirst p f s = some (s, n, n)
  | [], s, o, n, h => by simp [updateFirst] at h
  | d :: ds, s, o, n, h => by
      by_cases hd : p d = true
      · simp [updateFirst, hd] at h
        obtain ⟨hs, _ho, hn⟩ := h
        subst hs
        subst hn
        simp [updateFirst, hp d, hd, hf d]
      · rw [show updateFirst p f (d :: ds)
            = (match updateFirst p f ds with
               | none => none
               | some (s, o, n) => some (d :: s, o, n)) by simp [updateFirst, hd]] at h
        cases hds : updateFirst p f ds with
        | none => rw [hds] at h; simp at h
        | some x =>
            obtain ⟨s', o', n'⟩ := x
            rw [hds] at h
            simp at h
            obtain ⟨hs, _ho, hn⟩ := h
            have ih := updateFirst_stable p f hp hf ds s' o' n' hds
            subst hs
            subst hn
            simp [updateFirst, hd, ih]

/-- A store response with a null value extracts to the empty object. -/
theorem extract_famResponse_none :
    extractFindAndModifyNewObj (famResponse none) = .ok .nil := rfl

/-- A store response carrying a document extracts to that document. -/
theorem extract_famResponse_some (d : BSONObj) :
    extractFindAndModifyNewObj (famResponse (some d)) = .ok d := rfl

/-- grabLock maps a null store value to the empty lock record. -/
theorem grabLockFromResponse_none :
    grabLockFromResponse (famResponse none) = .ok LocksType.empty := rfl

/-- grabLock on a store response carrying a document: empty documents
become the empty lock record, anything else is parsed. -/
theorem grabLockFromResponse_doc (d : BSONObj) :
    grabLockFromResponse (famResponse (some d)) =
      (if d.isEmpty then .ok LocksType.empty
       else
        match LocksType.parseBSON d with
        | .error errMsg => .error ⟨ErrorCode.FailedToParse, errMsg⟩
        | .ok lockDoc => .ok lockDoc) := rfl

/-- overtakeLock maps a null store value to the empty lock record. -/
theorem overtakeLockFromResponse_none :
    overtakeLockFromResponse (famResponse none) = .ok LocksType.empty := rfl

/-- overtakeLock on a store response carrying a document. -/
theorem overtakeLockFromResponse_doc (d : BSONObj) :
    overtakeLockFromResponse (famResponse (some d)) =
      (if d.isEmpty then .ok LocksType.empty
       else
        match LocksType.parseBSON d with
        | .error errMsg => .error ⟨ErrorCode.FailedToParse, errMsg⟩
        | .ok lockDoc => .ok lockDoc) := rfl

/-- unlock reports success on a null store value. -/
theorem unlockFromResponse_none : unlockFromResponse (famResponse none) = Status.OK := rfl

/-- unlock reports success on any returned document. -/
theorem unlockFromResponse_doc (d : BSONObj) :
    unlockFromResponse (famResponse (some d)) = Status.OK := rfl

/-- Parsing the post-image of a `$set` of the new lock details: the
record carries exactly the caller-supplied fields, and the document's
prior `name`. -/
theorem parseBSON_applySet_newLockDetails (d : BSONObj) (n : String)
    (h : bsonLookup d "name" = some (.str n)) (sid : Nat) (who pid : String)
    (t : Nat) (why : String) :
    LocksType.parseBSON (applySet d (newLockDetails sid who pid t why)) =
      .ok ⟨some n, some sid, some LocksType.LOCKED, some who, some pid, some t, some why⟩ := by
  simp [applySet, newLockDetails, LocksType.parseBSON, parseOptStr, parseOptOID,
        parseOptInt, parseOptDate, lookup_setField_self, lookup_setField_ne, h]
  rfl

/-- The post-image of a `$set` of the new lock details is nonempty. -/
theorem isEmpty_applySet_newLockDetails (d : BSONObj) (sid : Nat) (who pid : String)
    (t : Nat) (why : String) :
    (applySet d (newLockDetails sid who pid t why)).isEmpty = false := by
  rw [show applySet d (newLockDetails sid who pid t why)
      = setField (applySet d (.cons "lockSessionID" (.oid sid)
          (.cons "state" (.int LocksType.LOCKED)
            (.cons "who" (.str who)
              (.cons "process" (.str pid)
                (.cons "when" (.date t) .nil)))))) "why" (.str why) from rfl]
  exact isEmpty_setField _ _ _

/-- The store holds a record with the name addressed by the query. -/
theorem recordNameExists_of (store : List BSONObj) (q : BSONObj) (v : BSONValue)
    (hq : bsonLookup q "name" = some v) (h : ∃ d ∈ store, bsonLookup d "name" = some v) :
    recordNameExists store q = true := by
  obtain ⟨d, hd, hv⟩ := h
  simp [recordNameExists, hq, List.any_eq_true]
  exact ⟨d, hd, hv⟩

/-- The store holds no record with the name addressed by the query. -/
theorem recordNameExists_not_of (store : List BSONObj) (q : BSONObj) (v : BSONValue)
    (hq : bsonLookup q "name" = some v)
    (h : ∀ d ∈ store, ¬ bsonLookup d "name" = some v) :
    recordNameExists store q = false := by
  simp [recordNameExists, hq, List.any_eq_false]
  exact h

/-- Query of the overtakeLock request. -/
theorem overtakeLockRequest_query (lockID : String) (sid cur : Nat)
    (who processId : String) (time : Nat) (why : String) :
    (overtakeLockRequest lockID sid cur who processId time why).query =
      .cons "$or"
        (.arr (.acons (.doc (.cons "name" (.str lockID)
                              (.cons "state" (.int LocksType.UNLOCKED) .nil)))
                (.acons (.doc (.cons "name" (.str lockID)
                                (.cons "lockSessionID" (.oid cur) .nil)))
                  .anil)))
        .nil := rfl

/-- Update document of the overtakeLock request. -/
theorem overtakeLockRequest_update (lockID : String) (sid cur : Nat)
    (who processId : String) (time : Nat) (why : String) :
    (overtakeLockRequest lockID sid cur who processId time why).update =
      .cons "$set" (.doc (newLockDetails sid who processId time why)) .nil := rfl

/-- overtakeLock does not request upsert. -/
theorem overtakeLockRequest_upsert (lockID : String) (sid cur : Nat)
    (who processId : String) (time : Nat) (why : String) :
    (overtakeLockRequest lockID sid cur who processId time why).upsert = false := rfl

/-- overtakeLock requests the post-update document. -/
theorem overtakeLockRequest_shouldReturnNew (lockID : String) (sid cur : Nat)
    (who processId : String) (time : Nat) (why : String) :
    (overtakeLockRequest lockID sid cur who processId time why).shouldReturnNew = true := rfl

/-- Sample store document: the lock record of resource chunkA, LOCKED
under session token 7 (used to instantiate hypothesized theorems). -/
def chunkLockedDoc : BSONObj :=
  .cons "name" (.str "chunkA")
    (.cons "lockSessionID" (.oid 7)
      (.cons "state" (.int 2)
        (.cons "who" (.str "w0")
          (.cons "process" (.str "p0")
            (.cons "when" (.date 3)
              (.cons "why" (.str "r0") .nil))))))

/-! ## Claims -/

/-- C1: grabLock issues a single atomic conditional update matching
`{name = lockID, state = UNLOCKED}`, `$set`-ting the caller-supplied
session token, LOCKED state, who, process, when and why, with upsert
enabled and the post-update document requested; when the update matches
nothing because the record exists and is LOCKED, grabLock returns the
empty lock record (not an error); when it matches — and likewise when
the record was never recorded and upsert creates it — grabLock returns a
record whose lockSessionID equals the caller-supplied token. -/
theorem grabLock_atomic_acquire_spec (lockID : String) (sid : Nat)
    (who processId : String) (time : Nat) (why : String) :
    ((grabLockRequest lockID sid who processId time why).query =
        .cons "name" (.str lockID) (.cons "state" (.int LocksType.UNLOCKED) .nil) ∧
      (grabLockRequest lockID sid who processId time why).update =
        .cons "$set" (.doc (newLockDetails sid who processId time why)) .nil ∧
      (grabLockRequest lockID sid who processId time why).upsert = true ∧
      (grabLockRequest lockID sid who processId time why).shouldReturnNew = true) ∧
    (∀ store : List BSONObj,
      (∀ d ∈ store, bsonLookup d "name" = some (.str lockID) →
        bsonLookup d "state" = some (.int LocksType.LOCKED)) →
      (∃ d ∈ store, bsonLookup d "name" = some (.str lockID)) →
      (grabLockOnStore store lockID sid who processId time why).2 = .ok LocksType.empty) ∧
    (∀ store : List BSONObj,
      (∃ d ∈ store,
        matchesQuery (grabLockRequest lockID sid who processId time why).query d = true) →
      ∃ rec : LocksType,
        (grabLockOnStore store lockID sid who processId time why).2 = .ok rec ∧
        rec.lockSessionID = some sid) ∧
    (∀ store : List BSONObj,
      (∀ d ∈ store, ¬ bsonLookup d "name" = some (.str lockID)) →
      ∃ rec : LocksType,
        (grabLockOnStore store lockID sid who processId time why).2 = .ok rec ∧
        rec.lockSessionID = some sid) := by
  refine ⟨⟨rfl, rfl, rfl, rfl⟩, ?_, ?_, ?_⟩
  · intro store hlocked hex
    have hnm : ∀ d ∈ store,
        matchesQuery (grabLockRequest lockID sid who processId time why).query d = false := by
      intro d hd
      rw [grabLockRequest_query]
      by_cases hn : bsonLookup d "name" = some (.str lockID)
      · have hst := hlocked d hd hn
        simp [matchesQuery, matchesSimple, bsonLookup, hn, hst, LocksType.LOCKED,
              LocksType.UNLOCKED]
      · simp [matchesQuery, matchesSimple, bsonLookup, hn]
    have hup := updateFirst_eq_none
        (fun d => matchesQuery (grabLockRequest lockID sid who processId time why).query d)
        (fun d => applySet d
          (setFieldsOf (grabLockRequest lockID sid who processId time why).update))
        store hnm
    have hexq : recordNameExists store
        (grabLockRequest lockID sid who processId time why).query = true :=
      recordNameExists_of store _ (.str lockID)
        (by rw [grabLockRequest_query]; simp [bsonLookup]) hex
    simp only [grabLockOnStore, runFindAndModify]
    rw [hup, hexq]
    simp [grabLockRequest_upsert, grabLockFromResponse_none]
  · intro store hm
    obtain ⟨s, o, hup, hpo, _ho⟩ := updateFirst_exists_match
        (fun d => matchesQuery (grabLockRequest lockID sid who processId time why).query d)
        (fun d => applySet d
          (setFieldsOf (grabLockRequest lockID sid who processId time why).update))
        store hm
    have honame : bsonLookup o "name" = some (.str lockID) := by
      rw [grabLockRequest_query] at hpo
      simp [matchesQuery, matchesSimple, bsonLookup] at hpo
      exact hpo.1
    refine ⟨⟨some lockID, some sid, some LocksType.LOCKED, some who, some processId,
             some time, some why⟩, ?_, rfl⟩
    simp only [grabLockOnStore, runFindAndModify]
    rw [hup]
    have hset : setFieldsOf (grabLockRequest lockID sid who processId time why).update
        = newLockDetails sid who processId time why := rfl
    simp only [grabLockRequest_shouldReturnNew, if_true, hset]
    rw [grabLockFromResponse_doc]
    rw [isEmpty_applySet_newLockDetails]
    rw [parseBSON_applySet_newLockDetails o lockID honame sid who processId time why]
    simp
  · intro store hfresh
    have hnm : ∀ d ∈ store,
        matchesQuery (grabLockRequest lockID sid who processId time why).query d = false := by
      intro d hd
      rw [grabLockRequest_query]
      simp [matchesQuery, matchesSimple, bsonLookup, hfresh d hd]
    have hup := updateFirst_eq_none
        (fun d => matchesQuery (grabLockRequest lockID sid who processId time why).query d)
        (fun d => applySet d
          (setFieldsOf (grabLockRequest lockID sid who processId time why).update))
        store hnm
    have hexq : recordNameExists store
        (grabLockRequest lockID sid who processId time why).query = false :=
      recordNameExists_not_of store _ (.str lockID)
        (by rw [grabLockRequest_query]; simp [bsonLookup]) hfresh
    refine ⟨⟨some lockID, some sid, some LocksType.LOCKED, some who, some processId,
             some time, some why⟩, ?_, rfl⟩
    simp only [grabLockOnStore, runFindAndModify]
    rw [hup, hexq]
    have heq : equalityFieldsOf (grabLockRequest lockID sid who processId time why).query
        = (grabLockRequest lockID sid who processId time why).query := rfl
    have hqname : bsonLookup (grabLockRequest lockID sid who processId time why).query "name"
        = some (.str lockID) := rfl
    simp only [grabLockRequest_upsert, grabLockRequest_shouldReturnNew, Bool.not_false,
               Bool.and_true, if_true, heq]
    have hset : setFieldsOf (grabLockRequest lockID sid who processId time why).update
        = newLockDetails sid who processId time why := rfl
    rw [grabLockFromResponse_doc, hset]
    rw [isEmpty_applySet_newLockDetails]
    rw [parseBSON_applySet_newLockDetails _ lockID hqname sid who processId time why]
    simp

/-- C1 witness: against a store holding the chunkA record LOCKED under
token 7, a grabLock of chunkA with token 1 returns the empty lock
record. -/
theorem grabLock_atomic_acquire_spec_witness :
    (grabLockOnStore [chunkLockedDoc] "chunkA" 1 "w1" "p1" 5 "r1").2 =
      .ok LocksType.empty :=
  (grabLock_atomic_acquire_spec "chunkA" 1 "w1" "p1" 5 "r1").2.1 [chunkLockedDoc]
    (by decide) (by decide)

/-- C2: overtakeLock issues a single atomic conditional update whose
match predicate is the OR of exactly the two clauses
`{name = lockID, state = UNLOCKED}` and
`{name = lockID, lockSessionID = expectedCurrentHolderID}`, `$set`-ting
the same fields as grabLock, without upsert and with the post-update
document requested; a no-match result is returned as the empty lock
record (not an error) and a match is returned as a record carrying the
new session token. -/
theorem overtakeLock_fenced_steal_spec (lockID : String) (sid cur : Nat)
    (who processId : String) (time : Nat) (why : String) :
    ((overtakeLockRequest lockID sid cur who processId time why).query =
        .cons "$or"
          (.arr (.acons (.doc (.cons "name" (.str lockID)
                                (.cons "state" (.int LocksType.UNLOCKED) .nil)))
                  (.acons (.doc (.cons "name" (.str lockID)
                                  (.cons "lockSessionID" (.oid cur) .nil)))
                    .anil)))
          .nil ∧
      (overtakeLockRequest lockID sid cur who processId time why).update =
        .cons "$set" (.doc (newLockDetails sid who processId time why)) .nil ∧
      (overtakeLockRequest lockID sid cur who processId time why).upsert = false ∧
      (overtakeLockRequest lockID sid cur who processId time why).shouldReturnNew = true) ∧
    (∀ store : List BSONObj,
      (∀ d ∈ store,
        matchesQuery (overtakeLockRequest lockID sid cur who processId time why).query d
          = false) →
      (overtakeLockOnStore store lockID sid cur who processId time why).2 =
        .ok LocksType.empty) ∧
    (∀ store : List BSONObj,
      (∃ d ∈ store,
        matchesQuery (overtakeLockRequest lockID sid cur who processId time why).query d
          = true) →
      ∃ rec : LocksType,
        (overtakeLockOnStore store lockID sid cur who processId time why).2 = .ok rec ∧
        rec.lockSessionID = some sid) := by
  refine ⟨⟨rfl, rfl, rfl, rfl⟩, ?_, ?_⟩
  · intro store hnm
    have hup := updateFirst_eq_none
        (fun d => matchesQuery (overtakeLockRequest lockID sid cur who processId time why).query d)
        (fun d => applySet d
          (setFieldsOf (overtakeLockRequest lockID sid cur who processId time why).update))
        store hnm
    simp only [overtakeLockOnStore, runFindAndModify]
    rw [hup]
    simp [overtakeLockRequest_upsert, overtakeLockFromResponse_none]
  · intro store hm
    obtain ⟨s, o, hup, hpo, _ho⟩ := updateFirst_exists_match
        (fun d => matchesQuery (overtakeLockRequest lockID sid cur who processId time why).query d)
        (fun d => applySet d
          (setFieldsOf (overtakeLockRequest lockID sid cur who processId time why).update))
        store hm
    have honame : bsonLookup o "name" = some (.str lockID) := by
      rw [overtakeLockRequest_query] at hpo
      simp [matchesQuery, bsonLookup, anyMatches, BSONValue.isABSONObj,
            BSONValue.objFields, matchesSimple] at hpo
      rcases hpo with h1 | h2
      · exact h1.1
      · exact h2.1
    refine ⟨⟨some lockID, some sid, some LocksType.LOCKED, some who, some processId,
             some time, some why⟩, ?_, rfl⟩
    simp only [overtakeLockOnStore, runFindAndModify]
    rw [hup]
    have hset : setFieldsOf (overtakeLockRequest lockID sid cur who processId time why).update
        = newLockDetails sid who processId time why := rfl
    simp only [overtakeLockRequest_shouldReturnNew, if_true, hset]
    rw [overtakeLockFromResponse_doc]
    rw [isEmpty_applySet_newLockDetails]
    rw [parseBSON_applySet_newLockDetails o lockID honame sid who processId time why]
    simp

/-- C2 witness: against a store holding the chunkA record LOCKED under
token 7, an overtakeLock of chunkA expecting holder 7 installs new token
9. -/
theorem overtakeLock_fenced_steal_spec_witness :
    ∃ rec : LocksType,
      (overtakeLockOnStore [chunkLockedDoc] "chunkA" 9 7 "w2" "p2" 6 "steal").2 =
        .ok rec ∧ rec.lockSessionID = some 9 :=
  (overtakeLock_fenced_steal_spec "chunkA" 9 7 "w2" "p2" 6 "steal").2.2 [chunkLockedDoc]
    (by decide)

/-- Query of the unlock request: the session token alone, no name
filter. -/
theorem unlockRequest_query (sid : Nat) :
    (unlockRequest sid).query = .cons "lockSessionID" (.oid sid) .nil := rfl

/-- Update document of the unlock request: set state to UNLOCKED. -/
theorem unlockRequest_update (sid : Nat) :
    (unlockRequest sid).update =
      .cons "$set" (.doc (.cons "state" (.int LocksType.UNLOCKED) .nil)) .nil := rfl

/-- unlock does not request upsert. -/
theorem unlockRequest_upsert (sid : Nat) : (unlockRequest sid).upsert = false := rfl

/-- unlock does not request the post-update document. -/
theorem unlockRequest_shouldReturnNew (sid : Nat) :
    (unlockRequest sid).shouldReturnNew = false := rfl

/-- unlock reports success whatever the store returned. -/
theorem unlockOnStore_status (store : List BSONObj) (sid : Nat) :
    (unlockOnStore store sid).2 = Status.OK := by
  have h : (unlockOnStore store sid).2
      = unlockFromResponse (famResponse (runFindAndModify store (unlockRequest sid)).value) :=
    rfl
  rw [h]
  cases (runFindAndModify store (unlockRequest sid)).value with
  | none => exact unlockFromResponse_none
  | some d => exact unlockFromResponse_doc d

/-- unlock's update preserves its own match predicate: setting `state`
does not change the `lockSessionID` a document carries. -/
theorem unlock_match_stable (sid : Nat) (d : BSONObj) :
    matchesQuery (unlockRequest sid).query
        (applySet d (setFieldsOf (unlockRequest sid).update))
      = matchesQuery (unlockRequest sid).query d := by
  have h1 : applySet d (setFieldsOf (unlockRequest sid).update)
      = setField d "state" (.int LocksType.UNLOCKED) := rfl
  rw [h1, unlockRequest_query]
  simp [matchesQuery, matchesSimple, bsonLookup,
        lookup_setField_ne d "state" "lockSessionID" (.int LocksType.UNLOCKED) (by decide)]

/-- unlock's update is idempotent on documents. -/
theorem unlock_update_idem (sid : Nat) (d : BSONObj) :
    applySet (applySet d (setFieldsOf (unlockRequest sid).update))
        (setFieldsOf (unlockRequest sid).update)
      = applySet d (setFieldsOf (unlockRequest sid).update) := by
  have h1 : ∀ e : BSONObj, applySet e (setFieldsOf (unlockRequest sid).update)
      = setField e "state" (.int LocksType.UNLOCKED) := fun e => rfl
  rw [h1, h1, setField_setField_self]

/-- Replaying unlock leaves the store where the first unlock put it. -/
theorem unlockOnStore_store_idem (store : List BSONObj) (sid : Nat) :
    (unlockOnStore (unlockOnStore store sid).1 sid).1 = (unlockOnStore store sid).1 := by
  cases hu : updateFirst (fun d => matchesQuery (unlockRequest sid).query d)
      (fun d => applySet d (setFieldsOf (unlockRequest sid).update)) store with
  | none =>
      have h1 : (unlockOnStore store sid).1 = store := by
        simp only [unlockOnStore, runFindAndModify]
        rw [hu]
        simp [unlockRequest_upsert]
      rw [h1]
      exact h1
  | some x =>
      obtain ⟨s, o, n⟩ := x
      have hst := updateFirst_stable _ _
          (fun d => unlock_match_stable sid d) (fun d => unlock_update_idem sid d)
          store s o n hu
      have h1 : (unlockOnStore store sid).1 = s := by
        simp only [unlockOnStore, runFindAndModify]
        rw [hu]
      have h2 : (unlockOnStore s sid).1 = s := by
        simp only [unlockOnStore, runFindAndModify]
        rw [hst]
      rw [h1, h2]

/-- C3 counterexample: with chunkA LOCKED under token 7, unlock(7)
followed by unlock(7) both succeed, but the second call's update does
NOT match nothing — the released record still carries lockSessionID 7,
so the match predicate `{lockSessionID = 7}` matches it again. -/
theorem unlock_second_call_matches_counterexample :
    (unlockOnStore [chunkLockedDoc] 7).2 = Status.OK ∧
    (unlockOnStore (unlockOnStore [chunkLockedDoc] 7).1 7).2 = Status.OK ∧
    famMatches (unlockOnStore [chunkLockedDoc] 7).1 (unlockRequest 7) = true := by
  decide

/-- C3 (amended): unlock issues an atomic conditional update matching
`{lockSessionID = sessionID}` only (no name filter) and sets state to
UNLOCKED; when no record holds that token the update matches nothing,
mutates nothing, and unlock still returns success; unlock(token) twice
returns success both times and the second call mutates no record — it
matches the already-released record (which still carries the token)
rather than matching nothing, and rewrites its state to the value it
already has. -/
theorem unlock_idempotent_release_spec (sid : Nat) :
    ((unlockRequest sid).query = .cons "lockSessionID" (.oid sid) .nil ∧
      (unlockRequest sid).update =
        .cons "$set" (.doc (.cons "state" (.int LocksType.UNLOCKED) .nil)) .nil ∧
      (unlockRequest sid).upsert = false) ∧
    (∀ store : List BSONObj,
      (∀ d ∈ store, ¬ bsonLookup d "lockSessionID" = some (.oid sid)) →
      famMatches store (unlockRequest sid) = false ∧
      (unlockOnStore store sid).1 = store ∧
      (unlockOnStore store sid).2 = Status.OK) ∧
    (∀ store : List BSONObj,
      (unlockOnStore store sid).2 = Status.OK ∧
      (unlockOnStore (unlockOnStore store sid).1 sid).2 = Status.OK ∧
      (unlockOnStore (unlockOnStore store sid).1 sid).1 = (unlockOnStore store sid).1) := by
  refine ⟨⟨rfl, rfl, rfl⟩, ?_, ?_⟩
  · intro store hno
    have hq : ∀ d ∈ store, matchesQuery (unlockRequest sid).query d = false := by
      intro d hd
      rw [unlockRequest_query]
      simp [matchesQuery, matchesSimple, bsonLookup, hno d hd]
    refine ⟨?_, ?_, unlockOnStore_status store sid⟩
    · simp only [famMatches, List.any_eq_false]
      intro d hd
      simp [hq d hd]
    · have hup := updateFirst_eq_none
          (fun d => matchesQuery (unlockRequest sid).query d)
          (fun d => applySet d (setFieldsOf (unlockRequest sid).update)) store hq
      simp only [unlockOnStore, runFindAndModify]
      rw [hup]
      simp [unlockRequest_upsert]
  · intro store
    exact ⟨unlockOnStore_status store sid,
           unlockOnStore_status (unlockOnStore store sid).1 sid,
           unlockOnStore_store_idem store sid⟩

/-- C3 witness: token 9 is held by nobody in a store holding only the
chunkA record locked under token 7, so unlock(9) matches nothing, leaves
the store unchanged and succeeds. -/
theorem unlock_idempotent_release_spec_witness :
    famMatches [chunkLockedDoc] (unlockRequest 9) = false ∧
    (unlockOnStore [chunkLockedDoc] 9).1 = [chunkLockedDoc] ∧
    (unlockOnStore [chunkLockedDoc] 9).2 = Status.OK :=
  (unlock_idempotent_release_spec 9).2.1 [chunkLockedDoc] (by decide)

/-- C4: when the overall command status of a response is a failure,
extractFindAndModifyNewObj returns that command failure verbatim — and
hence never yields a parsed result document, whatever else the response
contains. -/
theorem extract_command_failure_precedence (r : BSONObj)
    (h : (getStatusFromCommandResult r).isOK = false) :
    extractFindAndModifyNewObj r = .error (getStatusFromCommandResult r) := by
  simp [extractFindAndModifyNewObj, h]

/-- Sample response: failed command that nevertheless carries both a
durability-error substructure and a result field. -/
def cmdFailedResponse : BSONObj :=
  .cons "ok" (.int 0)
    (.cons "errmsg" (.str "failed")
      (.cons "writeConcernError"
        (.doc (.cons "code" (.int 64) (.cons "errmsg" (.str "timeout") .nil)))
        (.cons "value" (.doc (.cons "name" (.str "chunkA") .nil)) .nil)))

/-- C4 witness: the failed-command sample yields exactly the command
failure, despite its durability-error substructure and result field. -/
theorem extract_command_failure_precedence_witness :
    extractFindAndModifyNewObj cmdFailedResponse =
      .error ⟨ErrorCode.CommandFailed, "failed"⟩ :=
  extract_command_failure_precedence cmdFailedResponse (by decide)

/-- C5: on a command success carrying a durability-error substructure,
extractFindAndModifyNewObj returns a WriteConcernFailed error carrying
the substructure's embedded message when it parses, and an
UnsupportedFormat error when it does not — never the result field. -/
theorem extract_wc_error_precedence (r w : BSONObj)
    (hok : (getStatusFromCommandResult r).isOK = true)
    (hwc : bsonLookup r kCmdResponseWriteConcernField = some (.doc w)) :
    (∀ m, wcErrorParseBSON w = .ok m →
      extractFindAndModifyNewObj r = .error ⟨ErrorCode.WriteConcernFailed, m⟩) ∧
    (∀ e, wcErrorParseBSON w = .error e →
      extractFindAndModifyNewObj r = .error ⟨ErrorCode.UnsupportedFormat, e⟩) := by
  constructor <;> intro m hm <;>
    simp [extractFindAndModifyNewObj, hok, bsonExtractTypedField, hwc,
          BSONValue.btype, BSONValue.objFields, hm]

/-- Sample response: successful command with a well-formed
durability-error substructure and a result field. -/
def wcFailedResponse : BSONObj :=
  .cons "ok" (.int 1)
    (.cons "writeConcernError"
      (.doc (.cons "code" (.int 64) (.cons "errmsg" (.str "timeout") .nil)))
      (.cons "value" (.doc (.cons "name" (.str "chunkA") .nil)) .nil))

/-- C5 witness: the sample yields a WriteConcernFailed error carrying
the embedded message, not the result field. -/
theorem extract_wc_error_precedence_witness :
    extractFindAndModifyNewObj wcFailedResponse =
      .error ⟨ErrorCode.WriteConcernFailed, "timeout"⟩ :=
  (extract_wc_error_precedence wcFailedResponse
      (.cons "code" (.int 64) (.cons "errmsg" (.str "timeout") .nil))
      (by decide) (by decide)).1 "timeout" rfl

/-- C6: on a command success without a durability error, the result
field is returned when it holds a document, is an UnsupportedFormat
error when present, non-null and not a document, and an empty result
(success) when absent or explicitly null. -/
theorem extract_value_field_rules (r : BSONObj)
    (hok : (getStatusFromCommandResult r).isOK = true)
    (hwc : bsonLookup r kCmdResponseWriteConcernField = none) :
    (∀ f, bsonLookup r kFindAndModifyResponseResultDocField = some (.doc f) →
      extractFindAndModifyNewObj r = .ok f) ∧
    (∀ v, bsonLookup r kFindAndModifyResponseResultDocField = some v →
      v.isNull = false → v.isABSONObj = false →
      extractFindAndModifyNewObj r = .error ⟨ErrorCode.UnsupportedFormat,
        "expected an object from the findAndModify response value field"⟩) ∧
    (bsonLookup r kFindAndModifyResponseResultDocField = none →
      extractFindAndModifyNewObj r = .ok .nil) ∧
    (bsonLookup r kFindAndModifyResponseResultDocField = some .null →
      extractFindAndModifyNewObj r = .ok .nil) := by
  refine ⟨?_, ?_, ?_, ?_⟩
  · intro f hv
    simp [extractFindAndModifyNewObj, hok, bsonExtractTypedField, hwc, hv,
          BSONValue.isNull, BSONValue.isABSONObj, BSONValue.objFields]
  · intro v hv hnull hobj
    simp [extractFindAndModifyNewObj, hok, bsonExtractTypedField, hwc, hv, hnull, hobj]
  · intro hv
    simp [extractFindAndModifyNewObj, hok, bsonExtractTypedField, hwc, hv]
  · intro hv
    simp [extractFindAndModifyNewObj, hok, bsonExtractTypedField, hwc, hv,
          BSONValue.isNull]

/-- Sample response: successful command whose result field holds a
document. -/
def valueDocResponse : BSONObj :=
  .cons "ok" (.int 1)
    (.cons "value" (.doc (.cons "name" (.str "chunkA") .nil)) .nil)

/-- C6 witness: the sample's result document is returned. -/
theorem extract_value_field_rules_witness :
    extractFindAndModifyNewObj valueDocResponse =
      .ok (.cons "name" (.str "chunkA") .nil) :=
  (extract_value_field_rules valueDocResponse (by decide) (by decide)).1
    (.cons "name" (.str "chunkA") .nil) (by decide)

/-- C7: extractElectionId returns the epoch identifier exactly when the
nested status substructure is an object carrying a well-typed epoch
field; any missing or mistyped piece is an UnsupportedFormat error, and
getServerInfo propagates a missing epoch substructure as an
UnsupportedFormat error — never a defaulted epoch. -/
theorem extractElectionId_epoch_spec (r : BSONObj) :
    (∀ (g : BSONObj) (e : Nat), bsonLookup r kGLEStatsFieldName = some (.doc g) →
      bsonLookup g kGLEStatsElectionIdFieldName = some (.oid e) →
      extractElectionId r = .ok e) ∧
    (bsonLookup r kGLEStatsFieldName = none →
      statusCodeOf (extractElectionId r) = ErrorCode.UnsupportedFormat) ∧
    (∀ v, bsonLookup r kGLEStatsFieldName = some v → v.btype ≠ BSONType.Object →
      statusCodeOf (extractElectionId r) = ErrorCode.UnsupportedFormat) ∧
    (∀ g : BSONObj, bsonLookup r kGLEStatsFieldName = some (.doc g) →
      bsonLookup g kGLEStatsElectionIdFieldName = none →
      statusCodeOf (extractElectionId r) = ErrorCode.UnsupportedFormat) ∧
    (∀ (g : BSONObj) (v : BSONValue), bsonLookup r kGLEStatsFieldName = some (.doc g) →
      bsonLookup g kGLEStatsElectionIdFieldName = some v → (∀ e : Nat, v ≠ .oid e) →
      statusCodeOf (extractElectionId r) = ErrorCode.UnsupportedFormat) ∧
    (∀ e : Nat, extractElectionId r = .ok e →
      ∃ g : BSONObj, bsonLookup r kGLEStatsFieldName = some (.doc g) ∧
        bsonLookup g kGLEStatsElectionIdFieldName = some (.oid e)) ∧
    ((getStatusFromCommandResult r).isOK = true →
      bsonLookup r kGLEStatsFieldName = none →
      statusCodeOf (getServerInfoFromResponse r) = ErrorCode.UnsupportedFormat) := by
  refine ⟨?_, ?_, ?_, ?_, ?_, ?_, ?_⟩
  · intro g e hg he
    simp [extractElectionId, bsonExtractTypedField, hg, BSONValue.btype,
          BSONValue.objFields, bsonExtractOIDField, he]
  · intro hg
    simp [extractElectionId, bsonExtractTypedField, hg, statusCodeOf, statusOf]
  · intro v hg hv
    simp [extractElectionId, bsonExtractTypedField, hg, hv, statusCodeOf, statusOf]
  · intro g hg he
    simp [extractElectionId, bsonExtractTypedField, hg, BSONValue.btype,
          BSONValue.objFields, bsonExtractOIDField, he, statusCodeOf, statusOf]
  · intro g v hg hv hne
    cases v with
    | oid e => exact absurd rfl (hne e)
    | null =>
        simp [extractElectionId, bsonExtractTypedField, hg, BSONValue.btype,
              BSONValue.objFields, bsonExtractOIDField, hv, statusCodeOf, statusOf]
    | bool b =>
        simp [extractElectionId, bsonExtractTypedField, hg, BSONValue.btype,
              BSONValue.objFields, bsonExtractOIDField, hv, statusCodeOf, statusOf]
    | int n =>
        simp [extractElectionId, bsonExtractTypedField, hg, BSONValue.btype,
              BSONValue.objFields, bsonExtractOIDField, hv, statusCodeOf, statusOf]
    | str s =>
        simp [extractElectionId, bsonExtractTypedField, hg, BSONValue.btype,
              BSONValue.objFields, bsonExtractOIDField, hv, statusCodeOf, statusOf]
    | date d =>
        simp [extractElectionId, bsonExtractTypedField, hg, BSONValue.btype,
              BSONValue.objFields, bsonExtractOIDField, hv, statusCodeOf, statusOf]
    | doc f =>
        simp [extractElectionId, bsonExtractTypedField, hg, BSONValue.btype,
              BSONValue.objFields, bsonExtractOIDField, hv, statusCodeOf, statusOf]
    | arr a =>
        simp [extractElectionId, bsonExtractTypedField, hg, BSONValue.btype,
              BSONValue.objFields, bsonExtractOIDField, hv, statusCodeOf, statusOf]
  · intro e he
    cases hg : bsonLookup r kGLEStatsFieldName with
    | none => simp [extractElectionId, bsonExtractTypedField, hg] at he
    | some v =>
        cases v with
        | doc g =>
            refine ⟨g, rfl, ?_⟩
            simp [extractElectionId, bsonExtractTypedField, hg, BSONValue.btype,
                  BSONValue.objFields] at he
            cases hoid : bsonLookup g kGLEStatsElectionIdFieldName with
            | none => rw [bsonExtractOIDField, hoid] at he; simp at he
            | some w =>
                cases w <;> rw [bsonExtractOIDField, hoid] at he <;> simp at he
                subst he
                rfl
        | null => simp [extractElectionId, bsonExtractTypedField, hg, BSONValue.btype] at he
        | bool b => simp [extractElectionId, bsonExtractTypedField, hg, BSONValue.btype] at he
        | int n => simp [extractElectionId, bsonExtractTypedField, hg, BSONValue.btype] at he
        | str s => simp [extractElectionId, bsonExtractTypedField, hg, BSONValue.btype] at he
        | oid o => simp [extractElectionId, bsonExtractTypedField, hg, BSONValue.btype] at he
        | date d => simp [extractElectionId, bsonExtractTypedField, hg, BSONValue.btype] at he
        | arr a => simp [extractElectionId, bsonExtractTypedField, hg, BSONValue.btype] at he
  · intro hok hg
    cases hlt : bsonExtractTypedField r kLocalTimeField .Date with
    | error s =>
        simp [getServerInfoFromResponse, hok, hlt, statusCodeOf, statusOf]
    | ok v =>
        have hel : extractElectionId r =
            .error ⟨ErrorCode.UnsupportedFormat, "missing field " ++ kGLEStatsFieldName⟩ := by
          simp [extractElectionId, bsonExtractTypedField, hg]
        simp [getServerInfoFromResponse, hok, hlt, hel, statusCodeOf, statusOf]

/-- Sample status response: success, well-typed localTime, but no epoch
substructure. -/
def noEpochResponse : BSONObj :=
  .cons "ok" (.int 1) (.cons "localTime" (.date 42) .nil)

/-- C7 witness: getServerInfo on the sample missing the epoch
substructure is an UnsupportedFormat error. -/
theorem extractElectionId_epoch_spec_witness :
    statusCodeOf (getServerInfoFromResponse noEpochResponse) =
      ErrorCode.UnsupportedFormat :=
  (extractElectionId_epoch_spec noEpochResponse).2.2.2.2.2.2 (by decide) (by decide)

/-- C10: getServerInfo requires a top-level localTime field of Date
type: on a command success where localTime is absent or of any other
type, the result is an UnsupportedFormat error even when the epoch
substructure is well-formed. -/
theorem getServerInfo_localTime_required (r : BSONObj)
    (hok : (getStatusFromCommandResult r).isOK = true)
    (hlt : ∀ v, bsonLookup r kLocalTimeField = some v → v.btype ≠ BSONType.Date) :
    statusCodeOf (getServerInfoFromResponse r) = ErrorCode.UnsupportedFormat := by
  cases hv : bsonLookup r kLocalTimeField with
  | none =>
      simp [getServerInfoFromResponse, hok, bsonExtractTypedField, hv,
            statusCodeOf, statusOf]
  | some v =>
      have hd := hlt v hv
      simp [getServerInfoFromResponse, hok, bsonExtractTypedField, hv, hd,
            statusCodeOf, statusOf]

/-- Sample status response: success and a well-formed epoch
substructure, but a string-typed localTime. -/
def badLocalTimeResponse : BSONObj :=
  .cons "ok" (.int 1)
    (.cons "localTime" (.str "not-a-date")
      (.cons "$gleStats" (.doc (.cons "electionId" (.oid 3) .nil)) .nil))

/-- C10 witness: the mistyped-localTime sample yields an
UnsupportedFormat error despite its well-formed epoch substructure. -/
theorem getServerInfo_localTime_required_witness :
    statusCodeOf (getServerInfoFromResponse badLocalTimeResponse) =
      ErrorCode.UnsupportedFormat :=
  getServerInfo_localTime_required badLocalTimeResponse (by decide)
    (by
      intro v hv
      have h2 : some (BSONValue.str "not-a-date") = some v := hv
      injection h2 with h3
      rw [← h3]
      decide)

/-- C8: every implemented operation follows the same failure pipeline —
a host-targeting failure is returned immediately, an execution failure
is returned immediately, and otherwise the raw response is handed to the
response parser; in particular the pre-checking operations (ping,
grabLock) and the parser-only operations (unlock, overtakeLock) map
every response to the same outcome. -/
theorem operations_share_failure_pipeline :
    (∀ (s : Status) (run : FindAndModifyRequest → StatusWith BSONObj)
        (pid : String) (t : Nat), ping (.error s) run pid t = s) ∧
    (∀ (h : String) (s : Status) (pid : String) (t : Nat),
        ping (.ok h) (fun _ => .error s) pid t = s) ∧
    (∀ (h : String) (resp : BSONObj) (pid : String) (t : Nat),
        ping (.ok h) (fun _ => .ok resp) pid t = pingFromResponse resp) ∧
    (∀ (s : Status) (run : FindAndModifyRequest → StatusWith BSONObj)
        (lockID : String) (sid : Nat) (who pid : String) (t : Nat) (why : String),
        grabLock (.error s) run lockID sid who pid t why = .error s) ∧
    (∀ (h : String) (s : Status) (lockID : String) (sid : Nat) (who pid : String)
        (t : Nat) (why : String),
        grabLock (.ok h) (fun _ => .error s) lockID sid who pid t why = .error s) ∧
    (∀ (h : String) (resp : BSONObj) (lockID : String) (sid : Nat) (who pid : String)
        (t : Nat) (why : String),
        grabLock (.ok h) (fun _ => .ok resp) lockID sid who pid t why =
          grabLockFromResponse resp) ∧
    (∀ (s : Status) (run : FindAndModifyRequest → StatusWith BSONObj)
        (lockID : String) (sid cur : Nat) (who pid : String) (t : Nat) (why : String),
        overtakeLock (.error s) run lockID sid cur who pid t why = .error s) ∧
    (∀ (h : String) (s : Status) (lockID : String) (sid cur : Nat) (who pid : String)
        (t : Nat) (why : String),
        overtakeLock (.ok h) (fun _ => .error s) lockID sid cur who pid t why = .error s) ∧
    (∀ (h : String) (resp : BSONObj) (lockID : String) (sid cur : Nat)
        (who pid : String) (t : Nat) (why : String),
        overtakeLock (.ok h) (fun _ => .ok resp) lockID sid cur who pid t why =
          overtakeLockFromResponse resp) ∧
    (∀ (s : Status) (run : FindAndModifyRequest → StatusWith BSONObj) (sid : Nat),
        unlock (.error s) run sid = s) ∧
    (∀ (h : String) (s : Status) (sid : Nat),
        unlock (.ok h) (fun _ => .error s) sid = s) ∧
    (∀ (h : String) (resp : BSONObj) (sid : Nat),
        unlock (.ok h) (fun _ => .ok resp) sid = unlockFromResponse resp) ∧
    (∀ (s : Status) (run : BSONObj → StatusWith BSONObj),
        getServerInfo (.error s) run = .error s) ∧
    (∀ (h : String) (s : Status),
        getServerInfo (.ok h) (fun _ => .error s) = .error s) ∧
    (∀ (h : String) (resp : BSONObj),
        getServerInfo (.ok h) (fun _ => .ok resp) = getServerInfoFromResponse resp) ∧
    (∀ r : BSONObj, grabLockFromResponse r = overtakeLockFromResponse r) ∧
    (∀ r : BSONObj, pingFromResponse r = unlockFromResponse r) := by
  refine ⟨fun _ _ _ _ => rfl, fun _ _ _ _ => rfl, fun _ _ _ _ => rfl,
          fun _ _ _ _ _ _ _ _ => rfl, fun _ _ _ _ _ _ _ _ => rfl,
          fun _ _ _ _ _ _ _ _ => rfl,
          fun _ _ _ _ _ _ _ _ _ => rfl, fun _ _ _ _ _ _ _ _ _ => rfl,
          fun _ _ _ _ _ _ _ _ _ => rfl,
          fun _ _ _ => rfl, fun _ _ _ => rfl, fun _ _ _ => rfl,
          fun _ _ => rfl, fun _ _ => rfl, fun _ _ => rfl, ?_, ?_⟩
  · intro r
    by_cases h : (getStatusFromCommandResult r).isOK = true
    · simp [grabLockFromResponse, overtakeLockFromResponse, h]
    · have h' : (getStatusFromCommandResult r).isOK = false := by
        simpa using h
      simp [grabLockFromResponse, overtakeLockFromResponse,
            extractFindAndModifyNewObj, h']
  · intro r
    by_cases h : (getStatusFromCommandResult r).isOK = true
    · simp [pingFromResponse, unlockFromResponse, h]
    · have h' : (getStatusFromCommandResult r).isOK = false := by
        simpa using h
      simp [pingFromResponse, unlockFromResponse, extractFindAndModifyNewObj, h',
            statusOf]

/-- C9: the declared-but-unimplemented accessors getPing and getLockByTS
abort fatally at the call boundary and never return data. -/
theorem unimplemented_stubs_abort (processID : String) (ts : Nat) :
    getPing processID = FatalOr.fatal ∧ getLockByTS ts = FatalOr.fatal :=
  ⟨rfl, rfl⟩
